import Mathlib

/-!
Verification of `client/debian/apt-spacewalk/spacewalk.py`, an apt
acquire-method bridging apt's line protocol to a Spacewalk server.

The development shallowly embeds the two classes of the source file:
`pkg_acquire_method` (the protocol loop and frame parser) and
`spacewalk_method` (the session cache, path rewriter and fetch engine).
Python dictionaries become association lists, mutable instance attributes
become fields of an explicit `State` record threaded through each step,
and raised exceptions become an explicit `PyExc` value carried in the
step results.  External collaborators (configuration loading, the
authentication service, the channel listing, the HTTP connection and the
hash library) are supplied through an `Env` record; the MD5 and SHA-256
digest functions are parameters, with the `hashlib` incremental-update
semantics modelled by accumulating the exact byte sequence fed to the
accumulator and applying the digest function to it once at the end.
-/

namespace Spacewalk

/-! ### Python exceptions

The inductive covers the exceptions the embedded code can raise.  Two
name-resolution facts about the source matter here: the module imports
only the submodules `config`, `rhnChannel`, `up2dateAuth` and
`up2dateErrors` of `up2date_client`, so the bare name `up2date_client`
used at the two `raise up2date_client.AuthenticationError(...)` sites is
unbound and evaluating it raises `NameError: up2date_client`; likewise
`BadSslCaCertConfig` raised in `get_ssl_ca_cert` is defined nowhere, so
that raise statement also produces `NameError`. -/
inductive PyExc where
  | keyError (k : String)
  | indexError
  | typeError
  | nameError (n : String)
  | attributeError (a : String)
  | valueError (v : String)
deriving DecidableEq, Repr

/-- Python `e.__class__.__name__` for each embedded exception. -/
def PyExc.className : PyExc → String
  | .keyError _ => "KeyError"
  | .indexError => "IndexError"
  | .typeError => "TypeError"
  | .nameError _ => "NameError"
  | .attributeError _ => "AttributeError"
  | .valueError _ => "ValueError"

/-- Python 2 `str(e)` for each embedded exception. -/
def PyExc.msgStr : PyExc → String
  | .keyError k => "'" ++ k ++ "'"
  | .indexError => "list index out of range"
  | .typeError => "cannot concatenate 'str' and 'NoneType' objects"
  | .nameError n => "global name '" ++ n ++ "' is not defined"
  | .attributeError a => "spacewalk_method instance has no attribute '" ++ a ++ "'"
  | .valueError v => v

/-! ### String helpers mirroring the Python primitives used -/

/-- Python `str.strip()`: drop leading and trailing whitespace. -/
def strip (s : String) : String :=
  ⟨((s.data.dropWhile Char.isWhitespace).reverse.dropWhile Char.isWhitespace).reverse⟩

/-- Models Python `int()` on the non-negative decimal strings the apt
protocol uses for its message codes: `none` (a `ValueError`) when the
text is not a non-empty run of digits. -/
def parseNat? (l : List Char) : Option Nat :=
  if l = [] then none
  else if l.all Char.isDigit then some (l.foldl (fun a c => a * 10 + (c.toNat - 48)) 0)
  else none

/-- Split a character list at the first occurrence of `sep`, returning the
pieces before and after it, or `none` if `sep` does not occur. -/
def breakAtChar (sep : Char) : List Char → Option (List Char × List Char)
  | [] => none
  | c :: cs =>
    if c = sep then some ([], cs)
    else (breakAtChar sep cs).map (fun p => (c :: p.1, p.2))

/-- Python `s.split(sep, 1)` for a one-character separator: at most one
split, no stripping, a separator-free string yields a singleton list. -/
def splitOnce (sep : Char) (s : String) : List String :=
  match breakAtChar sep s.data with
  | none => [s]
  | some (a, b) => [⟨a⟩, ⟨b⟩]

/-- First occurrence of the pattern `pat` in a character list: returns the
characters before the match and the characters after it. -/
def findSub (pat : List Char) : List Char → Option (List Char × List Char)
  | [] => none
  | c :: cs =>
    if pat.isPrefixOf (c :: cs) then some ([], (c :: cs).drop pat.length)
    else (findSub pat cs).map (fun p => (c :: p.1, p.2))

/-- Python `s.replace(old, new, 1)`: replace the first occurrence only
(for a non-empty `old`; every call site passes a non-empty literal). -/
def replaceFirst (s old new : String) : String :=
  match findSub old.data s.data with
  | none => s
  | some (a, b) => ⟨a ++ new.data ++ b⟩

/-- Characters matched by the regex class `[\d\w]`: word characters. -/
def isWordChar (c : Char) : Bool := c.isAlphanum || c = '_'

/-- Try to match the regex `/binary-[\d\w]*/` anchored at the head of the
list; on success return the characters after the match. -/
def matchBinaryAt (l : List Char) : Option (List Char) :=
  if ("/binary-".data).isPrefixOf l then
    match (l.drop 8).dropWhile isWordChar with
    | '/' :: rest => some rest
    | _ => none
  else none

/-- Python `re.sub('/binary-[\\d\\w]*/', '/repodata/', s, 1)`: replace the
leftmost match of the pattern, if any. -/
def subBinaryFirst : List Char → List Char
  | [] => []
  | c :: cs =>
    match matchBinaryAt (c :: cs) with
    | some rest => "/repodata/".data ++ rest
    | none => c :: subBinaryFirst cs

/-! ### urlparse

Models Python's `urlparse` on the URL shapes this client receives:
absolute URLs `scheme://netloc/path` (no query or fragment), and plain
strings without `://`, which parse to an empty scheme and netloc with the
whole string as path. -/

structure Url where
  scheme : String
  netloc : String
  path : String
deriving DecidableEq, Repr

def urlparse (u : String) : Url :=
  match findSub "://".data u.data with
  | none => ⟨"", "", u⟩
  | some (sch, rest) =>
    ⟨⟨sch⟩, ⟨rest.takeWhile (fun c => c ≠ '/')⟩, ⟨rest.dropWhile (fun c => c ≠ '/')⟩⟩

/-! ### The path rewriter: `spacewalk_method.__transform_document`

Three ordered single-occurrence substitutions.  The first one evaluates
`'dists/channels:/' + self.base_channel + '/'` before substituting; when
`base_channel` is `None` (no root channel was found) that concatenation
raises `TypeError` regardless of whether the marker occurs in the
document. -/
def transformBody (b : String) (document : String) : String :=
  let d1 := replaceFirst document "dists/channels:/main/" ("dists/channels:/" ++ b ++ "/")
  let d2 : String := ⟨subBinaryFirst d1.data⟩
  replaceFirst d2 "dists/channels:/" "/XMLRPC/GET-REQ/"

def transformDocument (baseChannel : Option String) (document : String) :
    Except PyExc String :=
  match baseChannel with
  | none => .error .typeError
  | some b => .ok (transformBody b document)

/-! ### Frames and protocol messages

An outbound frame is a status code, its tag line, and the fields of the
dictionary handed to `__dict2msg`, in the order of the source's dict
literal; a field whose value is `None` (here `none`) is skipped by
`__dict2msg` when the frame is serialized.  An inbound message stores
`_number`, `_text` and the header fields (a Python dict with last-write
wins, modelled by in-place-replacing association-list insertion). -/

structure Frame where
  code : Nat
  tag : String
  fields : List (String × Option String)
deriving DecidableEq, Repr

structure Msg where
  num : Nat
  text : String
  fields : List (String × String)
deriving DecidableEq, Repr

/-- Dictionary insertion with Python semantics: replace the value of an
existing key in place, otherwise append. -/
def dictInsert (d : List (String × String)) (k v : String) : List (String × String) :=
  match d with
  | [] => [(k, v)]
  | (k', v') :: rest => if k' = k then (k, v) :: rest else (k', v') :: dictInsert rest k v

/-! ### The frame parser: `pkg_acquire_method.__get_next_msg`

The input stream is a list of lines as `readline` returns them, each
including its trailing newline; an exhausted list models `readline`
returning the empty string (end of stream).  `int()` is modelled for the
non-negative integers the protocol uses (`ValueError` otherwise).  The
parser returns the message (or `none` at end of stream), the new EOF
flag, and the remaining input. -/

/-- The header-line loop of `__get_next_msg` (lines 55-63 of the source):
a blank line `"\n"` ends the message, end of stream sets the EOF flag and
returns the partial message, and any other line is split at its first
`':'` — a line with no `':'` makes `s[1]` raise `IndexError`. -/
def parseHeaders : List String → List (String × String) →
    Except PyExc (List (String × String) × Bool × List String)
  | [], acc => .ok (acc, true, [])
  | line :: rest, acc =>
    if line = "\n" then .ok (acc, false, rest)
    else
      match breakAtChar ':' line.data with
      | none => .error .indexError
      | some (k, v) => parseHeaders rest (dictInsert acc ⟨k⟩ (strip ⟨v⟩))

def getNextMsg (eof : Bool) (input : List String) :
    Except PyExc (Option Msg × Bool × List String) :=
  if eof then .ok (none, eof, input)
  else
    match input with
    | [] => .ok (none, true, [])
    | line :: rest =>
      match breakAtChar ' ' line.data with
      | none =>
        match parseNat? (strip line).data with
        | none => .error (.valueError (strip line))
        | some _ => .error .indexError
      | some (a, b) =>
        match parseNat? (strip ⟨a⟩).data with
        | none => .error (.valueError (strip ⟨a⟩))
        | some n =>
          match parseHeaders rest [] with
          | .error e => .error e
          | .ok (fields, eofOut, restOut) => .ok (some ⟨n, strip ⟨b⟩, fields⟩, eofOut, restOut)

/-! ### Session data: configuration, connection, environment -/

/-- The `sslCACert` configuration value: either a single path string or a
list of paths (`get_ssl_ca_cert` accepts both shapes). -/
inductive CaVal where
  | s (x : String)
  | l (xs : List String)
deriving DecidableEq, Repr

/-- Python truthiness of a `sslCACert` value. -/
def CaVal.truthy : CaVal → Bool
  | .s x => x ≠ ""
  | .l xs => xs ≠ []

/-- The up2date configuration keys this program reads.  `sslCACert` is
`none` when the key is absent (`has_key` fails); `useNoSSLForPackages`
and `serverURL` are modelled as always present, as the code indexes them
unconditionally. -/
structure Config where
  serverURL : String
  useNoSSLForPackages : Nat
  sslCACert : Option CaVal
deriving DecidableEq, Repr

/-- `get_ssl_ca_cert` (lines 103-110): a missing or falsy `sslCACert`
executes `raise BadSslCaCertConfig`, and since `BadSslCaCertConfig` is
defined nowhere in the module this raises `NameError`; a list value is
returned as is, any other value is wrapped in a singleton list. -/
def get_ssl_ca_cert (cfg : Config) : Except PyExc (List String) :=
  match cfg.sslCACert with
  | none => .error (.nameError "BadSslCaCertConfig")
  | some v =>
    if v.truthy then
      match v with
      | .l xs => .ok xs
      | .s x => .ok [x]
    else .error (.nameError "BadSslCaCertConfig")

/-- A transport connection: its identity plus the arguments it was
constructed with (`HTTPConnection(netloc)` or
`HTTPSConnection(netloc, trusted_certs=...)`). -/
structure Conn where
  id : Nat
  secure : Bool
  netloc : String
  trusted_certs : List String
deriving DecidableEq, Repr

/-- Observable interactions with the external collaborators: the login
call (`up2dateAuth.getLoginInfo`), the channel-listing call
(`rhnChannel.getChannelDetails`), and a GET issued on a connection. -/
inductive Event where
  | loginCall
  | channelsCall
  | connRequest (connId : Nat) (path : String) (headers : List (String × String))
deriving DecidableEq, Repr

/-- The mutable attributes of a `spacewalk_method` instance.  The class
attributes (`up2date_cfg` … `conn`) default to `None`; `uri`,
`uri_parsed` and `filename` have no class default, so `none` there means
the attribute was never assigned and reading it raises
`AttributeError`. -/
structure State where
  up2date_cfg : Option Config
  up2date_server : Option Url
  login_info : Option (List (String × String))
  svr_channels : Option (List (String × String))
  http_headers : Option (List (String × String))
  base_channel : Option String
  conn : Option Conn
  uri : Option String
  uri_parsed : Option Url
  filename : Option String
deriving DecidableEq, Repr

def initState : State :=
  ⟨none, none, none, none, none, none, none, none, none, none⟩

/-- An HTTP response as the `conn.getresponse()` object exposes it: the
body is the sequence of chunks successive `res.read(4096)` calls return
(all non-empty in a well-formed response; the read loops stop at the
first empty chunk). -/
structure Resp where
  status : Nat
  reason : String
  headers : List (String × String)
  body : List (List Nat)
deriving DecidableEq, Repr

/-- `res.getheader(name)`: the header value, or `None` when absent. -/
def Resp.getheader (r : Resp) (k : String) : Option String := r.headers.lookup k

/-- The external collaborators: the loaded configuration, the result of
`up2dateAuth.getLoginInfo()` (`none` models Python `None`), the channel
list from `rhnChannel.getChannelDetails()` as (label, parent_channel)
pairs, the identity a newly constructed connection would get, and the
response the server sends to the GET. -/
structure Env where
  cfg : Config
  loginInfo : Option (List (String × String))
  channels : List (String × String)
  freshConnId : Nat
  resp : Resp
deriving DecidableEq, Repr

/-- The accumulated effects of running a piece of method code: the final
instance state, the frames printed, the `(filename, chunk)` writes to the
destination file, the collaborator events, the bytes read off the
response body, and the exception in flight if one was raised. -/
structure R where
  s : State
  frames : List Frame
  writes : List (String × List Nat)
  events : List Event
  readB : List Nat
  exc : Option PyExc
deriving DecidableEq, Repr

def pureR (s : State) : R := ⟨s, [], [], [], [], none⟩

/-- Sequencing: the second piece runs only when no exception is in
flight, and its effects are appended. -/
def R.andThen (r : R) (f : State → R) : R :=
  match r.exc with
  | some _ => r
  | none =>
    let r2 := f r.s
    ⟨r2.s, r.frames ++ r2.frames, r.writes ++ r2.writes, r.events ++ r2.events,
     r.readB ++ r2.readB, r2.exc⟩

/-! ### The session steps of `spacewalk_method` -/

def not_registered_msg : String := "This system is not registered with the spacewalk server"

/-- `fail` (lines 127-129): emit a `400` frame for `self.uri`; when no
fetch ever assigned `self.uri`, the attribute read itself raises
`AttributeError`. -/
def methodFail (s : State) (message : String) : Except PyExc Frame :=
  match s.uri with
  | none => .error (.attributeError "uri")
  | some u => .ok ⟨400, "URI Failure", [("URI", some u), ("Message", some message)]⟩

/-- `__load_config` (lines 132-136): on first use load the configuration
and parse its server URL; afterwards a no-op. -/
def stepLoadConfig (env : Env) (s : State) : State :=
  match s.up2date_cfg with
  | some _ => s
  | none =>
    { s with up2date_cfg := some env.cfg,
             up2date_server := some (urlparse env.cfg.serverURL) }

/-- `__login` (lines 139-145): skipped whenever `login_info` is not
`None`.  Otherwise: a status frame, the login call, the assignment of
its result (which may be `None`), and when that result is falsy the
statement `raise up2date_client.AuthenticationError(...)`, which raises
`NameError: up2date_client` because that name is unbound. -/
def stepLogin (env : Env) (s : State) : R :=
  match s.login_info with
  | some _ => pureR s
  | none =>
    match s.uri with
    | none => { pureR s with exc := some (.attributeError "uri") }
    | some u =>
      let f1 : Frame :=
        ⟨102, "Status", [("URI", some u), ("Message", some "Logging into the spacewalk server")]⟩
      let s1 := { s with login_info := env.loginInfo }
      match env.loginInfo with
      | some (_ :: _) =>
        ⟨s1, [f1, ⟨102, "Status", [("URI", some u), ("Message", some "Logged in")]⟩],
         [], [.loginCall], [], none⟩
      | _ => ⟨s1, [f1], [], [.loginCall], [], some (.nameError "up2date_client")⟩

/-- `__init_channels` (lines 148-153): on first use fetch the channel
list and set `base_channel` to the label of each channel whose
`parent_channel` is the empty string (the last one wins); when no such
channel exists `base_channel` is left as it was — nothing is raised. -/
def stepChannels (env : Env) (s : State) : R :=
  match s.svr_channels with
  | some _ => pureR s
  | none =>
    ⟨{ s with svr_channels := some env.channels,
              base_channel := env.channels.foldl
                (fun b ch => if ch.2 = "" then some ch.1 else b) s.base_channel },
     [], [], [.channelsCall], [], none⟩

def rhn_needed_headers : List String :=
  ["X-RHN-Server-Id", "X-RHN-Auth-User-Id", "X-RHN-Auth",
   "X-RHN-Auth-Server-Time", "X-RHN-Auth-Expire-Offset"]

/-- The header-copying loop of `__init_headers`: returns the headers
copied before the first missing mandatory field, and the exception if
one is missing — `raise up2date_client.AuthenticationError(...)` again
evaluates the unbound name `up2date_client`, so `NameError` is raised,
not an error naming the missing field. -/
def buildHeaders (li : List (String × String)) : List String → List (String × String) × Option PyExc
  | [] => ([], none)
  | h :: rest =>
    match li.lookup h with
    | none => ([], some (.nameError "up2date_client"))
    | some v =>
      let p := buildHeaders li rest
      ((h, v) :: p.1, p.2)

/-- `__init_headers` (lines 156-169): skipped when `http_headers` is not
`None`.  Otherwise `self.http_headers = {}` runs first, so even on the
error path the partially filled dictionary stays assigned; on success
the synthetic transport-capability header is appended. -/
def stepInitHeaders (s : State) : R :=
  match s.http_headers with
  | some _ => pureR s
  | none =>
    match s.login_info with
    | none => { pureR s with exc := some (.attributeError "has_key") }
    | some li =>
      match buildHeaders li rhn_needed_headers with
      | (hs, some ex) => { pureR { s with http_headers := some hs } with exc := some ex }
      | (hs, none) =>
        pureR { s with http_headers := some (hs ++ [("X-RHN-Transport-Capability", "follow-redirects=3")]) }

/-- `__make_conn` (lines 172-179): on first use construct a plain
connection when the server scheme is `http` or `useNoSSLForPackages`
is 1, otherwise a TLS connection configured with the CA certificate
list. -/
def stepMakeConn (env : Env) (s : State) : R :=
  match s.conn with
  | some _ => pureR s
  | none =>
    match s.up2date_server, s.up2date_cfg with
    | some srv, some cfg =>
      if srv.scheme = "http" ∨ cfg.useNoSSLForPackages = 1 then
        pureR { s with conn := some ⟨env.freshConnId, false, srv.netloc, []⟩ }
      else
        match get_ssl_ca_cert cfg with
        | .error e => { pureR s with exc := some e }
        | .ok certs => pureR { s with conn := some ⟨env.freshConnId, true, srv.netloc, certs⟩ }
    | _, _ => { pureR s with exc := some (.attributeError "up2date_server") }

/-- The chunks the `res.read(4096)` loops actually process: the prefix of
the body before the first empty chunk (both the drain loop and the
streaming loop break on a zero-length read). -/
def takeNonEmpty : List (List Nat) → List (List Nat)
  | [] => []
  | c :: cs => if c = [] then [] else c :: takeNonEmpty cs

/-- Lines 213-250 of `fetch`: issue the GET, then either the non-200
path (failure frame, then drain the body) or the 200 path (start frame,
stream the body to the file while feeding both hash accumulators, then
the done frame).  The `hashlib` accumulators are modelled by applying
the digest parameters to the exact byte sequence fed to `update`, which
is the concatenation of the chunks written to the file. -/
def stepExchange (md5f sha256f : List Nat → String) (env : Env) (s : State)
    (document : String) : R :=
  match s.conn, s.uri, s.filename, s.http_headers with
  | some c, some u, some fn, some hs =>
    let ev : Event := .connRequest c.id ("/" ++ document) hs
    let waitF : Frame := ⟨102, "Status", [("URI", some u), ("Message", some "Waiting for headers")]⟩
    let res := env.resp
    if res.status ≠ 200 then
      let failF : Frame := ⟨400, "URI Failure",
        [("URI", some u),
         ("Message", some (toString res.status ++ "  " ++ res.reason)),
         ("FailReason", some ("HttpError" ++ toString res.status))]⟩
      ⟨s, [waitF, failF], [], [ev], (takeNonEmpty res.body).flatten, none⟩
    else
      let startF : Frame := ⟨200, "URI Start",
        [("URI", some u), ("Size", res.getheader "content-length"),
         ("Last-Modified", res.getheader "last-modified")]⟩
      let chunks := takeNonEmpty res.body
      let bytes := chunks.flatten
      let doneF : Frame := ⟨201, "URI Done",
        [("URI", some u), ("Filename", some fn),
         ("Size", res.getheader "content-length"),
         ("Last-Modified", res.getheader "last-modified"),
         ("MD5-Hash", some (md5f bytes)),
         ("MD5Sum-Hash", some (md5f bytes)),
         ("SHA256-Hash", some (sha256f bytes))]⟩
      ⟨s, [waitF, startF, doneF], chunks.map (fun ch => (fn, ch)), [ev], bytes, none⟩
  | _, _, _, _ => { pureR s with exc := some (.attributeError "conn") }

/-- `fetch` (lines 191-250).  The attribute assignments at the top run
in source order, so a message without `URI` raises `KeyError` before
`self.uri` is ever set, while a message without `Filename` raises only
after it is.  A netloc mismatch executes `return self.fail()` — one
failure frame, no collaborator events — and the remaining steps chain
with exceptions cutting the chain short. -/
def fetch (md5f sha256f : List Nat → String) (env : Env) (s0 : State) (msg : Msg) : R :=
  match msg.fields.lookup "URI" with
  | none => { pureR s0 with exc := some (.keyError "URI") }
  | some u =>
    let s1 := { s0 with uri := some u, uri_parsed := some (urlparse u) }
    match msg.fields.lookup "Filename" with
    | none => { pureR s1 with exc := some (.keyError "Filename") }
    | some fn =>
      let s2 := { s1 with filename := some fn }
      let s3 := stepLoadConfig env s2
      match s3.up2date_server with
      | none => { pureR s3 with exc := some (.attributeError "up2date_server") }
      | some srv =>
        if (urlparse u).netloc ≠ srv.netloc then
          ⟨s3, [⟨400, "URI Failure", [("URI", some u), ("Message", some not_registered_msg)]⟩],
           [], [], [], none⟩
        else
          (stepLogin env s3).andThen (fun sa =>
            (stepChannels env sa).andThen (fun sb =>
              match transformDocument sb.base_channel (urlparse u).path with
              | .error e => { pureR sb with exc := some e }
              | .ok doc =>
                (stepInitHeaders sb).andThen (fun sc =>
                  (stepMakeConn env sc).andThen (fun sd =>
                    stepExchange md5f sha256f env sd doc))))

/-! ### The protocol driver: `pkg_acquire_method.run` -/

/-- The body of the 600 arm of `run` (lines 92-97): try `fetch`; any
exception (all the embedded exceptions derive from Python's `Exception`,
so the first handler catches each of them) is turned into
`self.fail(e.__class__.__name__ + ": " + str(e))` — but `fail` reads
`self.uri`, which raises `AttributeError` out of the handler when no
fetch has assigned it yet. -/
def dispatch600 (md5f sha256f : List Nat → String) (env : Env) (s : State) (msg : Msg) : R :=
  let r := fetch md5f sha256f env s msg
  match r.exc with
  | none => r
  | some e =>
    match methodFail r.s (e.className ++ ": " ++ e.msgStr) with
    | .error e2 => { r with exc := some e2 }
    | .ok fr => { r with frames := r.frames ++ [fr], exc := none }

/-- The outcome of `run`: everything printed, everything written, and
either an exit code (`0` at end of stream, `100` on an unexpected frame
code) or the exception that escaped the loop. -/
structure RunOut where
  frames : List Frame
  writes : List (String × List Nat)
  exit : Except PyExc Nat
deriving Repr

/-- `run` (lines 85-99) with explicit fuel; `run` below supplies fuel
exceeding the number of input lines, and every loop iteration that
recurses consumes at least one line, so the fuel-exhausted branch is
never reached from `run`. -/
def runLoop (md5f sha256f : List Nat → String) (env : Env) :
    Nat → State → Bool → List String → List Frame → List (String × List Nat) → RunOut
  | 0, _, _, _, fs, ws => ⟨fs, ws, .error (.valueError "out of fuel")⟩
  | fuel + 1, s, eof, input, fs, ws =>
    match getNextMsg eof input with
    | .error e => ⟨fs, ws, .error e⟩
    | .ok (none, _, _) => ⟨fs, ws, .ok 0⟩
    | .ok (some m, eofNext, rest) =>
      if m.num = 600 then
        let r := dispatch600 md5f sha256f env s m
        match r.exc with
        | some e => ⟨fs ++ r.frames, ws ++ r.writes, .error e⟩
        | none => runLoop md5f sha256f env fuel r.s eofNext rest (fs ++ r.frames) (ws ++ r.writes)
      else ⟨fs, ws, .ok 100⟩

def run (md5f sha256f : List Nat → String) (env : Env) (input : List String) : RunOut :=
  runLoop md5f sha256f env (input.length + 1) initState false input [] []

/-! ### Concrete inputs used by witnesses and counterexamples -/

/-- A stand-in digest function (the development is parametric in the MD5
implementation). -/
def mdW : List Nat → String := fun _ => "A"

/-- A stand-in digest function for SHA-256. -/
def shW : List Nat → String := fun _ => "B"

def cfgW : Config := ⟨"http://h", 0, none⟩

/-- A login dictionary carrying all five mandatory fields. -/
def loginW : List (String × String) :=
  [("X-RHN-Server-Id", "1000"), ("X-RHN-Auth-User-Id", "7"), ("X-RHN-Auth", "tok"),
   ("X-RHN-Auth-Server-Time", "t0"), ("X-RHN-Auth-Expire-Offset", "3600")]

def msgW : Msg := ⟨600, "URI Acquire", [("URI", "http://h/x"), ("Filename", "/tmp/f")]⟩

def connW : Conn := ⟨3, false, "h", []⟩

def hdrsW : List (String × String) :=
  loginW ++ [("X-RHN-Transport-Capability", "follow-redirects=3")]

/-- A session state with every cache populated. -/
def sPopW : State :=
  ⟨some cfgW, some (urlparse "http://h"), some loginW, some [("lbl", "")],
   some hdrsW, some "lbl", some connW, none, none, none⟩

/-- Channel listing with no root channel (no empty parent label). -/
def envNoRootW : Env := ⟨cfgW, some [("a", "b")], [("child", "parent")], 7, ⟨200, "OK", [], []⟩⟩

/-- Login succeeds but the returned dictionary misses every mandatory
header field. -/
def envAuthW : Env := ⟨cfgW, some [("a", "b")], [("lbl", "")], 7, ⟨200, "OK", [], []⟩⟩

/-- A 200 response whose `content-length` header (999) disagrees with
its actual one-byte body. -/
def envSizeW : Env :=
  ⟨cfgW, some loginW, [("lbl", "")], 7, ⟨200, "OK", [("content-length", "999")], [[65]]⟩⟩

/-- A 404 response with a two-chunk body. -/
def env404W : Env := ⟨cfgW, some loginW, [("lbl", "")], 7, ⟨404, "Not Found", [], [[1, 2], [3]]⟩⟩

/-! ### Helper lemmas: which attributes each session step touches -/

@[simp] theorem stepLoadConfig_uri (env : Env) (s : State) :
    (stepLoadConfig env s).uri = s.uri := by
  unfold stepLoadConfig; split <;> rfl

@[simp] theorem stepLoadConfig_login (env : Env) (s : State) :
    (stepLoadConfig env s).login_info = s.login_info := by
  unfold stepLoadConfig; split <;> rfl

@[simp] theorem stepLoadConfig_channels (env : Env) (s : State) :
    (stepLoadConfig env s).svr_channels = s.svr_channels := by
  unfold stepLoadConfig; split <;> rfl

@[simp] theorem stepLoadConfig_headers (env : Env) (s : State) :
    (stepLoadConfig env s).http_headers = s.http_headers := by
  unfold stepLoadConfig; split <;> rfl

@[simp] theorem stepLoadConfig_base (env : Env) (s : State) :
    (stepLoadConfig env s).base_channel = s.base_channel := by
  unfold stepLoadConfig; split <;> rfl

@[simp] theorem stepLoadConfig_conn (env : Env) (s : State) :
    (stepLoadConfig env s).conn = s.conn := by
  unfold stepLoadConfig; split <;> rfl

@[simp] theorem stepLoadConfig_filename (env : Env) (s : State) :
    (stepLoadConfig env s).filename = s.filename := by
  unfold stepLoadConfig; split <;> rfl

theorem stepLoadConfig_cfg_mono (env : Env) (s : State) (v : Config)
    (h : s.up2date_cfg = some v) : (stepLoadConfig env s).up2date_cfg = some v := by
  unfold stepLoadConfig; split <;> simp_all

theorem stepLoadConfig_server_mono (env : Env) (s : State) (c : Config) (v : Url)
    (hc : s.up2date_cfg = some c) (h : s.up2date_server = some v) :
    (stepLoadConfig env s).up2date_server = some v := by
  unfold stepLoadConfig; rw [hc]; exact h

@[simp] theorem stepLogin_s_uri (env : Env) (s : State) :
    (stepLogin env s).s.uri = s.uri := by
  unfold stepLogin pureR; (repeat' split) <;> simp_all

@[simp] theorem stepLogin_s_cfg (env : Env) (s : State) :
    (stepLogin env s).s.up2date_cfg = s.up2date_cfg := by
  unfold stepLogin pureR; (repeat' split) <;> simp_all

@[simp] theorem stepLogin_s_server (env : Env) (s : State) :
    (stepLogin env s).s.up2date_server = s.up2date_server := by
  unfold stepLogin pureR; (repeat' split) <;> simp_all

@[simp] theorem stepLogin_s_channels (env : Env) (s : State) :
    (stepLogin env s).s.svr_channels = s.svr_channels := by
  unfold stepLogin pureR; (repeat' split) <;> simp_all

@[simp] theorem stepLogin_s_headers (env : Env) (s : State) :
    (stepLogin env s).s.http_headers = s.http_headers := by
  unfold stepLogin pureR; (repeat' split) <;> simp_all

@[simp] theorem stepLogin_s_base (env : Env) (s : State) :
    (stepLogin env s).s.base_channel = s.base_channel := by
  unfold stepLogin pureR; (repeat' split) <;> simp_all

@[simp] theorem stepLogin_s_conn (env : Env) (s : State) :
    (stepLogin env s).s.conn = s.conn := by
  unfold stepLogin pureR; (repeat' split) <;> simp_all

@[simp] theorem stepLogin_s_filename (env : Env) (s : State) :
    (stepLogin env s).s.filename = s.filename := by
  unfold stepLogin pureR; (repeat' split) <;> simp_all

theorem stepLogin_login_mono (env : Env) (s : State) (v : List (String × String))
    (h : s.login_info = some v) : (stepLogin env s).s.login_info = some v := by
  unfold stepLogin; rw [h]; exact h

@[simp] theorem stepChannels_s_uri (env : Env) (s : State) :
    (stepChannels env s).s.uri = s.uri := by
  unfold stepChannels pureR; split <;> rfl

@[simp] theorem stepChannels_s_cfg (env : Env) (s : State) :
    (stepChannels env s).s.up2date_cfg = s.up2date_cfg := by
  unfold stepChannels pureR; split <;> rfl

@[simp] theorem stepChannels_s_server (env : Env) (s : State) :
    (stepChannels env s).s.up2date_server = s.up2date_server := by
  unfold stepChannels pureR; split <;> rfl

@[simp] theorem stepChannels_s_login (env : Env) (s : State) :
    (stepChannels env s).s.login_info = s.login_info := by
  unfold stepChannels pureR; split <;> rfl

@[simp] theorem stepChannels_s_headers (env : Env) (s : State) :
    (stepChannels env s).s.http_headers = s.http_headers := by
  unfold stepChannels pureR; split <;> rfl

@[simp] theorem stepChannels_s_conn (env : Env) (s : State) :
    (stepChannels env s).s.conn = s.conn := by
  unfold stepChannels pureR; split <;> rfl

@[simp] theorem stepChannels_s_filename (env : Env) (s : State) :
    (stepChannels env s).s.filename = s.filename := by
  unfold stepChannels pureR; split <;> rfl

theorem stepChannels_channels_mono (env : Env) (s : State) (v : List (String × String))
    (h : s.svr_channels = some v) : (stepChannels env s).s.svr_channels = some v := by
  unfold stepChannels; rw [h]; exact h

@[simp] theorem stepInitHeaders_s_uri (s : State) :
    (stepInitHeaders s).s.uri = s.uri := by
  unfold stepInitHeaders pureR; (repeat' split) <;> rfl

@[simp] theorem stepInitHeaders_s_cfg (s : State) :
    (stepInitHeaders s).s.up2date_cfg = s.up2date_cfg := by
  unfold stepInitHeaders pureR; (repeat' split) <;> rfl

@[simp] theorem stepInitHeaders_s_server (s : State) :
    (stepInitHeaders s).s.up2date_server = s.up2date_server := by
  unfold stepInitHeaders pureR; (repeat' split) <;> rfl

@[simp] theorem stepInitHeaders_s_login (s : State) :
    (stepInitHeaders s).s.login_info = s.login_info := by
  unfold stepInitHeaders pureR; (repeat' split) <;> rfl

@[simp] theorem stepInitHeaders_s_channels (s : State) :
    (stepInitHeaders s).s.svr_channels = s.svr_channels := by
  unfold stepInitHeaders pureR; (repeat' split) <;> rfl

@[simp] theorem stepInitHeaders_s_base (s : State) :
    (stepInitHeaders s).s.base_channel = s.base_channel := by
  unfold stepInitHeaders pureR; (repeat' split) <;> rfl

@[simp] theorem stepInitHeaders_s_conn (s : State) :
    (stepInitHeaders s).s.conn = s.conn := by
  unfold stepInitHeaders pureR; (repeat' split) <;> rfl

@[simp] theorem stepInitHeaders_s_filename (s : State) :
    (stepInitHeaders s).s.filename = s.filename := by
  unfold stepInitHeaders pureR; (repeat' split) <;> rfl

theorem stepInitHeaders_headers_mono (s : State) (v : List (String × String))
    (h : s.http_headers = some v) : (stepInitHeaders s).s.http_headers = some v := by
  unfold stepInitHeaders; rw [h]; exact h

@[simp] theorem stepMakeConn_s_uri (env : Env) (s : State) :
    (stepMakeConn env s).s.uri = s.uri := by
  unfold stepMakeConn pureR; (repeat' split) <;> rfl

@[simp] theorem stepMakeConn_s_cfg (env : Env) (s : State) :
    (stepMakeConn env s).s.up2date_cfg = s.up2date_cfg := by
  unfold stepMakeConn pureR; (repeat' split) <;> rfl

@[simp] theorem stepMakeConn_s_server (env : Env) (s : State) :
    (stepMakeConn env s).s.up2date_server = s.up2date_server := by
  unfold stepMakeConn pureR; (repeat' split) <;> rfl

@[simp] theorem stepMakeConn_s_login (env : Env) (s : State) :
    (stepMakeConn env s).s.login_info = s.login_info := by
  unfold stepMakeConn pureR; (repeat' split) <;> rfl

@[simp] theorem stepMakeConn_s_channels (env : Env) (s : State) :
    (stepMakeConn env s).s.svr_channels = s.svr_channels := by
  unfold stepMakeConn pureR; (repeat' split) <;> rfl

@[simp] theorem stepMakeConn_s_headers (env : Env) (s : State) :
    (stepMakeConn env s).s.http_headers = s.http_headers := by
  unfold stepMakeConn pureR; (repeat' split) <;> rfl

@[simp] theorem stepMakeConn_s_base (env : Env) (s : State) :
    (stepMakeConn env s).s.base_channel = s.base_channel := by
  unfold stepMakeConn pureR; (repeat' split) <;> rfl

@[simp] theorem stepMakeConn_s_filename (env : Env) (s : State) :
    (stepMakeConn env s).s.filename = s.filename := by
  unfold stepMakeConn pureR; (repeat' split) <;> rfl

theorem stepMakeConn_conn_mono (env : Env) (s : State) (v : Conn)
    (h : s.conn = some v) : (stepMakeConn env s).s.conn = some v := by
  unfold stepMakeConn; rw [h]; exact h

@[simp] theorem stepExchange_s (md5f sha256f : List Nat → String) (env : Env) (s : State)
    (document : String) : (stepExchange md5f sha256f env s document).s = s := by
  unfold stepExchange pureR
  (repeat' split) <;> (dsimp only; repeat' split) <;> rfl

/-! ### Composition lemmas for `R.andThen` -/

theorem andThen_s_mono (P : State → Prop) (r : R) (f : State → R)
    (hf : ∀ t, P t → P (f t).s) (h : P r.s) : P (r.andThen f).s := by
  unfold R.andThen; split
  · exact h
  · exact hf r.s h

theorem mem_frames_andThen {fr : Frame} {r : R} {f : State → R}
    (h : fr ∈ (r.andThen f).frames) : fr ∈ r.frames ∨ fr ∈ (f r.s).frames := by
  unfold R.andThen at h; split at h
  · exact Or.inl h
  · exact List.mem_append.mp h

theorem mem_events_andThen {ev : Event} {r : R} {f : State → R}
    (h : ev ∈ (r.andThen f).events) : ev ∈ r.events ∨ ev ∈ (f r.s).events := by
  unfold R.andThen at h; split at h
  · exact Or.inl h
  · exact List.mem_append.mp h

/-! ### State preservation through `fetch` -/

/-- `fetch` stores the message's `URI` into `self.uri` before anything
else and nothing later overwrites it. -/
theorem fetch_s_uri (md5f sha256f : List Nat → String) (env : Env) (s : State) (msg : Msg)
    (u : String) (h : msg.fields.lookup "URI" = some u) :
    (fetch md5f sha256f env s msg).s.uri = some u := by
  unfold fetch
  rw [h]
  dsimp only
  split
  · rfl
  · split
    · simp [pureR]
    · split
      · simp [pureR]
      · refine andThen_s_mono (fun t => t.uri = some u) _ _ (fun t ht => ?_) (by simp [pureR])
        refine andThen_s_mono (fun t => t.uri = some u) _ _ (fun t2 ht2 => ?_) (by simpa)
        split
        · simpa [pureR]
        · refine andThen_s_mono (fun t3 => t3.uri = some u) _ _ (fun t3 ht3 => ?_) (by simpa)
          refine andThen_s_mono (fun t4 => t4.uri = some u) _ _ (fun t4 ht4 => ?_) (by simpa)
          simpa

/-- Generic preservation of a state predicate through the whole of
`fetch`: the predicate must survive the initial attribute assignments and
each session step. -/
theorem fetch_s_mono (md5f sha256f : List Nat → String) (env : Env) (s : State) (msg : Msg)
    (P : State → Prop)
    (hupd1 : ∀ t a b, P t → P { t with uri := a, uri_parsed := b })
    (hupd2 : ∀ t a b c, P t → P { t with uri := a, uri_parsed := b, filename := c })
    (hLoad : ∀ t, P t → P (stepLoadConfig env t))
    (hLogin : ∀ t, P t → P (stepLogin env t).s)
    (hChan : ∀ t, P t → P (stepChannels env t).s)
    (hHead : ∀ t, P t → P (stepInitHeaders t).s)
    (hConn : ∀ t, P t → P (stepMakeConn env t).s)
    (h : P s) : P (fetch md5f sha256f env s msg).s := by
  unfold fetch
  split
  · exact h
  · split
    · exact hupd1 _ _ _ h
    · dsimp only
      split
      · exact hLoad _ (hupd2 _ _ _ _ h)
      · split
        · exact hLoad _ (hupd2 _ _ _ _ h)
        · refine andThen_s_mono P _ _ (fun t ht => ?_) (hLogin _ (hLoad _ (hupd2 _ _ _ _ h)))
          refine andThen_s_mono P _ _ (fun t2 ht2 => ?_) (hChan _ ht)
          split
          · exact ht2
          · refine andThen_s_mono P _ _ (fun t3 ht3 => ?_) (hHead _ ht2)
            refine andThen_s_mono P _ _ (fun t4 ht4 => ?_) (hConn _ ht3)
            simpa using ht4

/-! ### Events emitted by each step -/

theorem stepLogin_events (env : Env) (t : State) :
    ∀ e ∈ (stepLogin env t).events, e = Event.loginCall := by
  unfold stepLogin pureR
  (repeat' split) <;> simp

theorem stepChannels_events (env : Env) (t : State) :
    ∀ e ∈ (stepChannels env t).events, e = Event.channelsCall := by
  unfold stepChannels pureR
  (repeat' split) <;> simp

@[simp] theorem stepInitHeaders_events (t : State) : (stepInitHeaders t).events = [] := by
  unfold stepInitHeaders pureR
  (repeat' split) <;> rfl

@[simp] theorem stepMakeConn_events (env : Env) (t : State) :
    (stepMakeConn env t).events = [] := by
  unfold stepMakeConn pureR
  (repeat' split) <;> rfl

/-- Any GET event `stepExchange` emits goes through the connection cached
in the state it was given. -/
theorem stepExchange_events_conn (md5f sha256f : List Nat → String) (env : Env) (t : State)
    (document : String) (i : Nat) (p : String) (hs : List (String × String))
    (hmem : Event.connRequest i p hs ∈ (stepExchange md5f sha256f env t document).events) :
    ∃ cc, t.conn = some cc ∧ i = cc.id := by
  unfold stepExchange pureR at hmem
  split at hmem
  · rename_i c0 u0 f0 hd0 hconn huri hfn hhdr
    refine ⟨c0, hconn, ?_⟩
    dsimp only at hmem
    split at hmem <;> simp_all
  · simp_all

theorem stepExchange_events_id (md5f sha256f : List Nat → String) (env : Env) (t : State)
    (document : String) (c : Conn) (hconn : t.conn = some c)
    (i : Nat) (p : String) (hs : List (String × String))
    (hmem : Event.connRequest i p hs ∈ (stepExchange md5f sha256f env t document).events) :
    i = c.id := by
  obtain ⟨cc, hcc, hid⟩ := stepExchange_events_conn md5f sha256f env t document i p hs hmem
  rw [hconn] at hcc
  injection hcc with hji
  rw [hid, ← hji]

/-- A fetch that starts with a cached connection issues every GET over
exactly that connection. -/
theorem fetch_connRequest_id (md5f sha256f : List Nat → String) (env : Env) (s : State)
    (msg : Msg) (c : Conn) (h : s.conn = some c)
    (i : Nat) (p : String) (hs : List (String × String))
    (hmem : Event.connRequest i p hs ∈ (fetch md5f sha256f env s msg).events) : i = c.id := by
  unfold fetch at hmem
  split at hmem
  · simp [pureR] at hmem
  · split at hmem
    · simp [pureR] at hmem
    · dsimp only at hmem
      split at hmem
      · simp [pureR] at hmem
      · split at hmem
        · simp at hmem
        · rcases mem_events_andThen hmem with h1 | h2
          · simpa using stepLogin_events env _ _ h1
          · rcases mem_events_andThen h2 with h3 | h4
            · simpa using stepChannels_events env _ _ h3
            · split at h4
              · simp [pureR] at h4
              · rcases mem_events_andThen h4 with h5 | h6
                · simp [stepInitHeaders_events] at h5
                · rcases mem_events_andThen h6 with h7 | h8
                  · simp [stepMakeConn_events] at h7
                  · exact stepExchange_events_id md5f sha256f env _ _ c
                      (stepMakeConn_conn_mono env _ c (by simp [h])) i p hs h8

/-! ### Frames emitted by each step -/

theorem stepLogin_frames_code (env : Env) (t : State) :
    ∀ fr ∈ (stepLogin env t).frames, fr.code = 102 := by
  unfold stepLogin pureR
  (repeat' split) <;> simp

@[simp] theorem stepChannels_frames (env : Env) (t : State) :
    (stepChannels env t).frames = [] := by
  unfold stepChannels pureR; split <;> rfl

@[simp] theorem stepInitHeaders_frames (t : State) : (stepInitHeaders t).frames = [] := by
  unfold stepInitHeaders pureR; (repeat' split) <;> rfl

@[simp] theorem stepMakeConn_frames (env : Env) (t : State) :
    (stepMakeConn env t).frames = [] := by
  unfold stepMakeConn pureR; (repeat' split) <;> rfl

/-- In every `201 URI Done` frame emitted by the exchange step, the
`MD5-Hash` and `MD5Sum-Hash` fields hold the same digest. -/
theorem stepExchange_frames_md5 (md5f sha256f : List Nat → String) (env : Env) (t : State)
    (document : String) :
    ∀ fr ∈ (stepExchange md5f sha256f env t document).frames, fr.code = 201 →
      fr.fields.lookup "MD5-Hash" = fr.fields.lookup "MD5Sum-Hash" := by
  unfold stepExchange pureR
  (repeat' split) <;> (dsimp only; repeat' split) <;> intro fr hfr hcode <;>
    (simp only [List.mem_cons, List.not_mem_nil, or_false] at hfr) <;>
    (rcases hfr with (rfl | rfl | rfl)) <;> rfl

/-! ### List lemmas about the streaming loops and the root-channel fold -/

/-- With no empty chunk in the body, the read loops process the whole
body. -/
theorem takeNonEmpty_of_ne (l : List (List Nat)) (h : ∀ c ∈ l, c ≠ []) :
    takeNonEmpty l = l := by
  induction l with
  | nil => rfl
  | cons c cs ih =>
    unfold takeNonEmpty
    rw [if_neg (h c (List.mem_cons_self c cs))]
    rw [ih fun x hx => h x (List.mem_cons_of_mem c hx)]

/-- The root-channel fold of `__init_channels` leaves `base_channel`
untouched when no channel has an empty parent label. -/
theorem foldl_root_skip (chs : List (String × String)) (b0 : Option String)
    (h : ∀ ch ∈ chs, ch.2 ≠ "") :
    chs.foldl (fun b ch => if ch.2 = "" then some ch.1 else b) b0 = b0 := by
  induction chs generalizing b0 with
  | nil => rfl
  | cons c cs ih =>
    rw [List.foldl_cons, if_neg (h c (List.mem_cons_self c cs))]
    exact ih b0 fun x hx => h x (List.mem_cons_of_mem c hx)

/-! ### Claim C1 -/

/-- Claim C1, refuted at its own scenario: for the inbound path
`/dists/channels:/main/repodata/repomd.xml` with root channel
`prod-x86_64`, the three transforms produce
`//XMLRPC/GET-REQ/prod-x86_64/repodata/repomd.xml` — the third transform
replaces the `dists/channels:/` prefix by `/XMLRPC/GET-REQ/`, so the
output does not end in the claimed suffix
`/XMLRPC/GET-REQ/dists/channels:/prod-x86_64/repodata/repomd.xml`. -/
theorem C1_counterexample :
    transformDocument (some "prod-x86_64")
        (urlparse "http://h/dists/channels:/main/repodata/repomd.xml").path
      = .ok "//XMLRPC/GET-REQ/prod-x86_64/repodata/repomd.xml"
    ∧ ("/XMLRPC/GET-REQ/dists/channels:/prod-x86_64/repodata/repomd.xml".data.isSuffixOf
        "//XMLRPC/GET-REQ/prod-x86_64/repodata/repomd.xml".data) = false :=
  ⟨rfl, by decide⟩

/-- Claim C1 (amended): for the inbound path
`/dists/channels:/main/repodata/repomd.xml` with root channel label
`prod-x86_64`, the Path Rewriter produces a backend path ending in
`/XMLRPC/GET-REQ/prod-x86_64/repodata/repomd.xml` (the root path prefix
`dists/channels:/` itself is rewritten to `/XMLRPC/GET-REQ/`, so no
`dists/channels:` segment survives). -/
theorem C1_amended_transform :
    transformDocument (some "prod-x86_64")
        (urlparse "http://h/dists/channels:/main/repodata/repomd.xml").path
      = .ok "//XMLRPC/GET-REQ/prod-x86_64/repodata/repomd.xml"
    ∧ ("/XMLRPC/GET-REQ/prod-x86_64/repodata/repomd.xml".data.isSuffixOf
        "//XMLRPC/GET-REQ/prod-x86_64/repodata/repomd.xml".data) = true :=
  ⟨rfl, by decide⟩

/-! ### Claim C2 -/

/-- Claim C2, refuted: for a channel set with no empty-parent entry the
ensure-channels step does not fail with any error — the whole fetch run
shows `svr_channels` populated and `base_channel` still unset, and the
exception that eventually surfaces is the `TypeError` raised later by
the path transform concatenating `None`, not a channel-resolution
error. -/
theorem C2_counterexample :
    (fetch mdW shW envNoRootW initState msgW).exc = some PyExc.typeError
    ∧ (fetch mdW shW envNoRootW initState msgW).s.svr_channels = some [("child", "parent")]
    ∧ (fetch mdW shW envNoRootW initState msgW).s.base_channel = none :=
  ⟨rfl, rfl, rfl⟩

/-- Claim C2 (amended): for every channel set containing no entry with
an empty parent label, `__init_channels` completes normally — no
exception, channel list stored — and leaves the root channel unset
(`base_channel` stays `None`); no `ChannelResolutionError` exists in the
code. -/
theorem C2_amended_channels (env : Env) (s : State)
    (hsv : s.svr_channels = none) (hb : s.base_channel = none)
    (h : ∀ ch ∈ env.channels, ch.2 ≠ "") :
    stepChannels env s =
      ⟨{ s with svr_channels := some env.channels, base_channel := none },
       [], [], [.channelsCall], [], none⟩ := by
  unfold stepChannels
  rw [hsv, foldl_root_skip env.channels s.base_channel h, hb]

/-- Witness for C2 (amended) at a concrete channel set. -/
theorem C2_witness :
    stepChannels envNoRootW initState =
      ⟨{ initState with svr_channels := some [("child", "parent")], base_channel := none },
       [], [], [.channelsCall], [], none⟩ :=
  C2_amended_channels envNoRootW initState rfl rfl (by decide)

/-! ### Claim C4 -/

/-- Claim C4, evaluated at the failing input: a login dictionary missing
every mandatory field.  `__init_headers` does raise before any GET is
issued (the only collaborator events are the login and channel calls),
but the exception is `NameError: up2date_client` — the raise statement
references the unbound name `up2date_client` — so nothing names the
first absent mandatory field. -/
theorem C4_code_evaluation :
    (fetch mdW shW envAuthW initState msgW).exc = some (PyExc.nameError "up2date_client")
    ∧ (fetch mdW shW envAuthW initState msgW).events = [.loginCall, .channelsCall]
    ∧ (fetch mdW shW envAuthW initState msgW).writes = [] :=
  ⟨rfl, rfl, rfl⟩

/-! ### Claim C5 -/

/-- Claim C5, refuted: a 600 frame carrying no `URI` field makes `fetch`
raise `KeyError` before `self.uri` is ever assigned; the handler's
`self.fail(...)` then itself raises `AttributeError`, which escapes the
loop — the run terminates with an exception and no `400` frame was
emitted. -/
theorem C5_counterexample :
    (run mdW shW envAuthW ["600 URI Acquire\n", "\n"]).exit
      = .error (PyExc.attributeError "uri")
    ∧ (run mdW shW envAuthW ["600 URI Acquire\n", "\n"]).frames = [] :=
  ⟨rfl, rfl⟩

/-- Claim C5 (amended): for every 600 frame that carries a `URI` field,
any exception raised while handling it is caught by the loop and
converted to a `400 URI Failure` frame referencing the request's URI and
the exception's class name plus message, and no exception is left in
flight (so `run` continues with the next frame); but a 600 frame without
a `URI` field on the first request escapes the handler (see the
counterexample). -/
theorem C5_amended_catch (md5f sha256f : List Nat → String) (env : Env) (s : State) (msg : Msg)
    (u : String) (e : PyExc)
    (hu : msg.fields.lookup "URI" = some u)
    (he : (fetch md5f sha256f env s msg).exc = some e) :
    dispatch600 md5f sha256f env s msg =
      { fetch md5f sha256f env s msg with
          frames := (fetch md5f sha256f env s msg).frames
            ++ [⟨400, "URI Failure",
                 [("URI", some u), ("Message", some (e.className ++ ": " ++ e.msgStr))]⟩],
          exc := none } := by
  unfold dispatch600 methodFail
  dsimp only
  rw [he, fetch_s_uri md5f sha256f env s msg u hu]

/-- Witness for C5 (amended): the no-root-channel fetch raises
`TypeError`, and the dispatcher converts it into a `400` frame and
clears the exception. -/
theorem C5_witness :
    dispatch600 mdW shW envNoRootW initState msgW =
      { fetch mdW shW envNoRootW initState msgW with
          frames := (fetch mdW shW envNoRootW initState msgW).frames
            ++ [⟨400, "URI Failure",
                 [("URI", some "http://h/x"),
                  ("Message", some (PyExc.typeError.className ++ ": " ++ PyExc.typeError.msgStr))]⟩],
          exc := none } :=
  C5_amended_catch mdW shW envNoRootW initState msgW "http://h/x" PyExc.typeError rfl rfl

/-! ### Claim C3 -/

/-- Claim C3, refuted: the `Size` field of the `201 URI Done` frame is
`res.getheader('content-length')`, not the count of transferred bytes —
for a 200 response with a one-byte body but a `content-length` header of
`999`, exactly one byte is written yet the frame reports size `999`. -/
theorem C3_counterexample :
    (fetch mdW shW envSizeW initState msgW).writes = [("/tmp/f", [65])]
    ∧ ((fetch mdW shW envSizeW initState msgW).frames.getLast?).map
        (fun fr => fr.fields.lookup "Size") = some (some "999")
    ∧ some "999" ≠ some (toString (1 : Nat)) :=
  ⟨rfl, rfl, by decide⟩

/-- Claim C3 (amended): for every 200 response, the `201 URI Done` frame
reports `Size` equal to the response's `content-length` header (omitted
when absent) — not necessarily the transferred byte count — while
`MD5-Hash` and `SHA256-Hash` are the digests of exactly the bytes
written to the destination file: the writes are precisely the body
chunks, and both digest accumulators are fed their concatenation, each
once, in order.  Stated over any populated session state. -/
theorem C3_amended_fetch_digests (md5f sha256f : List Nat → String) (env : Env)
    (cfg : Config) (srv : Url) (li ch hd : List (String × String)) (b : String) (c : Conn)
    (ou : Option String) (op : Option Url) (onm : Option String)
    (msg : Msg) (u fn : String)
    (hu : msg.fields.lookup "URI" = some u)
    (hfn : msg.fields.lookup "Filename" = some fn)
    (hnet : (urlparse u).netloc = srv.netloc)
    (hstatus : env.resp.status = 200)
    (hbody : ∀ chk ∈ env.resp.body, chk ≠ []) :
    fetch md5f sha256f env
        ⟨some cfg, some srv, some li, some ch, some hd, some b, some c, ou, op, onm⟩ msg =
      ⟨⟨some cfg, some srv, some li, some ch, some hd, some b, some c,
        some u, some (urlparse u), some fn⟩,
       [⟨102, "Status", [("URI", some u), ("Message", some "Waiting for headers")]⟩,
        ⟨200, "URI Start",
         [("URI", some u), ("Size", env.resp.getheader "content-length"),
          ("Last-Modified", env.resp.getheader "last-modified")]⟩,
        ⟨201, "URI Done",
         [("URI", some u), ("Filename", some fn),
          ("Size", env.resp.getheader "content-length"),
          ("Last-Modified", env.resp.getheader "last-modified"),
          ("MD5-Hash", some (md5f env.resp.body.flatten)),
          ("MD5Sum-Hash", some (md5f env.resp.body.flatten)),
          ("SHA256-Hash", some (sha256f env.resp.body.flatten))]⟩],
       env.resp.body.map (fun chk => (fn, chk)),
       [.connRequest c.id ("/" ++ transformBody b (urlparse u).path) hd],
       env.resp.body.flatten, none⟩ := by
  unfold fetch
  rw [hu, hfn]
  dsimp only [stepLoadConfig, R.andThen, stepLogin, stepChannels, stepInitHeaders,
    stepMakeConn, stepExchange, transformDocument, pureR]
  rw [if_neg (by simp [hnet]), if_neg (by simp [hstatus]),
    takeNonEmpty_of_ne env.resp.body hbody]
  simp

/-- Witness for C3 (amended) at the concrete size-mismatch response. -/
theorem C3_witness :
    fetch mdW shW envSizeW
        ⟨some cfgW, some (urlparse "http://h"), some loginW, some [("lbl", "")],
         some hdrsW, some "lbl", some connW, none, none, none⟩ msgW =
      ⟨⟨some cfgW, some (urlparse "http://h"), some loginW, some [("lbl", "")],
        some hdrsW, some "lbl", some connW,
        some "http://h/x", some (urlparse "http://h/x"), some "/tmp/f"⟩,
       [⟨102, "Status", [("URI", some "http://h/x"), ("Message", some "Waiting for headers")]⟩,
        ⟨200, "URI Start",
         [("URI", some "http://h/x"), ("Size", envSizeW.resp.getheader "content-length"),
          ("Last-Modified", envSizeW.resp.getheader "last-modified")]⟩,
        ⟨201, "URI Done",
         [("URI", some "http://h/x"), ("Filename", some "/tmp/f"),
          ("Size", envSizeW.resp.getheader "content-length"),
          ("Last-Modified", envSizeW.resp.getheader "last-modified"),
          ("MD5-Hash", some (mdW envSizeW.resp.body.flatten)),
          ("MD5Sum-Hash", some (mdW envSizeW.resp.body.flatten)),
          ("SHA256-Hash", some (shW envSizeW.resp.body.flatten))]⟩],
       envSizeW.resp.body.map (fun chk => ("/tmp/f", chk)),
       [.connRequest connW.id ("/" ++ transformBody "lbl" (urlparse "http://h/x").path) hdrsW],
       envSizeW.resp.body.flatten, none⟩ :=
  C3_amended_fetch_digests mdW shW envSizeW cfgW (urlparse "http://h") loginW
    [("lbl", "")] hdrsW "lbl" connW none none none msgW "http://h/x" "/tmp/f"
    rfl rfl (by decide) rfl (by decide)

/-! ### Claim C6 -/

/-- Claim C6: for every fetch over a populated session whose response
status is not 200, `fetch` emits a `400` frame carrying the HTTP status
and reason (after the `Waiting for headers` status frame), drains the
entire response body before returning (`readB` is the whole body), and
writes nothing to the destination. -/
theorem C6_non200 (md5f sha256f : List Nat → String) (env : Env)
    (cfg : Config) (srv : Url) (li ch hd : List (String × String)) (b : String) (c : Conn)
    (ou : Option String) (op : Option Url) (onm : Option String)
    (msg : Msg) (u fn : String)
    (hu : msg.fields.lookup "URI" = some u)
    (hfn : msg.fields.lookup "Filename" = some fn)
    (hnet : (urlparse u).netloc = srv.netloc)
    (hstatus : env.resp.status ≠ 200)
    (hbody : ∀ chk ∈ env.resp.body, chk ≠ []) :
    fetch md5f sha256f env
        ⟨some cfg, some srv, some li, some ch, some hd, some b, some c, ou, op, onm⟩ msg =
      ⟨⟨some cfg, some srv, some li, some ch, some hd, some b, some c,
        some u, some (urlparse u), some fn⟩,
       [⟨102, "Status", [("URI", some u), ("Message", some "Waiting for headers")]⟩,
        ⟨400, "URI Failure",
         [("URI", some u),
          ("Message", some (toString env.resp.status ++ "  " ++ env.resp.reason)),
          ("FailReason", some ("HttpError" ++ toString env.resp.status))]⟩],
       [], [.connRequest c.id ("/" ++ transformBody b (urlparse u).path) hd],
       env.resp.body.flatten, none⟩ := by
  unfold fetch
  rw [hu, hfn]
  dsimp only [stepLoadConfig, R.andThen, stepLogin, stepChannels, stepInitHeaders,
    stepMakeConn, stepExchange, transformDocument, pureR]
  rw [if_neg (by simp [hnet]), if_pos hstatus, takeNonEmpty_of_ne env.resp.body hbody]
  simp

/-- Witness for C6 at a concrete 404 response with a two-chunk body. -/
theorem C6_witness :
    fetch mdW shW env404W
        ⟨some cfgW, some (urlparse "http://h"), some loginW, some [("lbl", "")],
         some hdrsW, some "lbl", some connW, none, none, none⟩ msgW =
      ⟨⟨some cfgW, some (urlparse "http://h"), some loginW, some [("lbl", "")],
        some hdrsW, some "lbl", some connW,
        some "http://h/x", some (urlparse "http://h/x"), some "/tmp/f"⟩,
       [⟨102, "Status", [("URI", some "http://h/x"), ("Message", some "Waiting for headers")]⟩,
        ⟨400, "URI Failure",
         [("URI", some "http://h/x"),
          ("Message", some (toString env404W.resp.status ++ "  " ++ env404W.resp.reason)),
          ("FailReason", some ("HttpError" ++ toString env404W.resp.status))]⟩],
       [], [.connRequest connW.id ("/" ++ transformBody "lbl" (urlparse "http://h/x").path) hdrsW],
       env404W.resp.body.flatten, none⟩ :=
  C6_non200 mdW shW env404W cfgW (urlparse "http://h") loginW [("lbl", "")] hdrsW "lbl" connW
    none none none msgW "http://h/x" "/tmp/f" rfl rfl (by decide) (by decide) (by decide)

/-! ### Claim C7 -/

/-- Claim C7: a fetch whose URI netloc differs from the configured
server's netloc emits exactly the generic `400` failure frame (the
not-registered message) and returns with no collaborator event at all:
no login call, no channel call, no GET, no write, no body read. -/
theorem C7_host_mismatch (md5f sha256f : List Nat → String) (env : Env) (s : State)
    (msg : Msg) (u fn : String) (srv : Url)
    (hu : msg.fields.lookup "URI" = some u)
    (hfn : msg.fields.lookup "Filename" = some fn)
    (hsrv : (stepLoadConfig env
        { s with uri := some u, uri_parsed := some (urlparse u),
                 filename := some fn }).up2date_server = some srv)
    (hnet : (urlparse u).netloc ≠ srv.netloc) :
    fetch md5f sha256f env s msg =
      ⟨stepLoadConfig env
         { s with uri := some u, uri_parsed := some (urlparse u), filename := some fn },
       [⟨400, "URI Failure", [("URI", some u), ("Message", some not_registered_msg)]⟩],
       [], [], [], none⟩ := by
  unfold fetch
  rw [hu, hfn]
  dsimp only
  rw [hsrv]
  dsimp only
  rw [if_pos hnet]

/-- Witness for C7: a request for `http://other/x` against the
configured server `http://h`. -/
theorem C7_witness :
    fetch mdW shW env404W initState
        ⟨600, "URI Acquire", [("URI", "http://other/x"), ("Filename", "/tmp/f")]⟩ =
      ⟨stepLoadConfig env404W
         { initState with uri := some "http://other/x",
                          uri_parsed := some (urlparse "http://other/x"),
                          filename := some "/tmp/f" },
       [⟨400, "URI Failure",
         [("URI", some "http://other/x"), ("Message", some not_registered_msg)]⟩],
       [], [], [], none⟩ :=
  C7_host_mismatch mdW shW env404W initState
    ⟨600, "URI Acquire", [("URI", "http://other/x"), ("Filename", "/tmp/f")]⟩
    "http://other/x" "/tmp/f" (urlparse "http://h") rfl rfl rfl (by decide)

/-! ### Claim C8 -/

/-- Claim C8: every session cache (configuration — with its derived
parsed server URL —, login info, channel set, header bundle, transport
connection) is written at most once: a fetch starting from a state in
which a cache is populated leaves exactly that value in place, and in
particular any GET it issues goes over the cached connection object, so
two sequential fetches to the same host use the identical connection. -/
theorem C8_memoization (md5f sha256f : List Nat → String) (env : Env) (s : State) (msg : Msg) :
    (∀ v, s.up2date_cfg = some v → (fetch md5f sha256f env s msg).s.up2date_cfg = some v)
    ∧ (∀ cv v, s.up2date_cfg = some cv → s.up2date_server = some v →
        (fetch md5f sha256f env s msg).s.up2date_server = some v)
    ∧ (∀ v, s.login_info = some v → (fetch md5f sha256f env s msg).s.login_info = some v)
    ∧ (∀ v, s.svr_channels = some v → (fetch md5f sha256f env s msg).s.svr_channels = some v)
    ∧ (∀ v, s.http_headers = some v → (fetch md5f sha256f env s msg).s.http_headers = some v)
    ∧ (∀ c, s.conn = some c → (fetch md5f sha256f env s msg).s.conn = some c
        ∧ ∀ i p hs, Event.connRequest i p hs ∈ (fetch md5f sha256f env s msg).events →
            i = c.id) := by
  refine ⟨?_, ?_, ?_, ?_, ?_, ?_⟩
  · intro v hv
    exact fetch_s_mono md5f sha256f env s msg (fun t => t.up2date_cfg = some v)
      (fun t a b ht => ht) (fun t a b c ht => ht)
      (fun t ht => stepLoadConfig_cfg_mono env t v ht)
      (fun t ht => by simpa using ht) (fun t ht => by simpa using ht)
      (fun t ht => by simpa using ht) (fun t ht => by simpa using ht) hv
  · intro cv v hc hv
    exact (fetch_s_mono md5f sha256f env s msg
      (fun t => t.up2date_cfg = some cv ∧ t.up2date_server = some v)
      (fun t a b ht => ht) (fun t a b c ht => ht)
      (fun t ht => ⟨stepLoadConfig_cfg_mono env t cv ht.1,
        stepLoadConfig_server_mono env t cv v ht.1 ht.2⟩)
      (fun t ht => by simpa using ht) (fun t ht => by simpa using ht)
      (fun t ht => by simpa using ht) (fun t ht => by simpa using ht) ⟨hc, hv⟩).2
  · intro v hv
    exact fetch_s_mono md5f sha256f env s msg (fun t => t.login_info = some v)
      (fun t a b ht => ht) (fun t a b c ht => ht)
      (fun t ht => by simpa using ht)
      (fun t ht => stepLogin_login_mono env t v ht)
      (fun t ht => by simpa using ht) (fun t ht => by simpa using ht)
      (fun t ht => by simpa using ht) hv
  · intro v hv
    exact fetch_s_mono md5f sha256f env s msg (fun t => t.svr_channels = some v)
      (fun t a b ht => ht) (fun t a b c ht => ht)
      (fun t ht => by simpa using ht) (fun t ht => by simpa using ht)
      (fun t ht => stepChannels_channels_mono env t v ht)
      (fun t ht => by simpa using ht) (fun t ht => by simpa using ht) hv
  · intro v hv
    exact fetch_s_mono md5f sha256f env s msg (fun t => t.http_headers = some v)
      (fun t a b ht => ht) (fun t a b c ht => ht)
      (fun t ht => by simpa using ht) (fun t ht => by simpa using ht)
      (fun t ht => by simpa using ht)
      (fun t ht => stepInitHeaders_headers_mono t v ht)
      (fun t ht => by simpa using ht) hv
  · intro c hc
    refine ⟨?_, ?_⟩
    · exact fetch_s_mono md5f sha256f env s msg (fun t => t.conn = some c)
        (fun t a b ht => ht) (fun t a b c2 ht => ht)
        (fun t ht => by simpa using ht) (fun t ht => by simpa using ht)
        (fun t ht => by simpa using ht) (fun t ht => by simpa using ht)
        (fun t ht => stepMakeConn_conn_mono env t c ht) hc
    · intro i p hs hmem
      exact fetch_connRequest_id md5f sha256f env s msg c hc i p hs hmem

/-- Witness for C8: a fetch from the fully populated session keeps the
cached connection object. -/
theorem C8_witness :
    (fetch mdW shW env404W sPopW msgW).s.conn = some connW :=
  ((C8_memoization mdW shW env404W sPopW msgW).2.2.2.2.2 connW rfl).1

/-! ### Claim C9 -/

/-- Claim C9: in every `201 URI Done` frame `fetch` emits, the
`MD5-Hash` field and the `MD5Sum-Hash` field carry the identical digest
value — both are `hash_md5.hexdigest()` over the transferred bytes. -/
theorem C9_md5_fields (md5f sha256f : List Nat → String) (env : Env) (s : State) (msg : Msg) :
    ∀ fr ∈ (fetch md5f sha256f env s msg).frames, fr.code = 201 →
      fr.fields.lookup "MD5-Hash" = fr.fields.lookup "MD5Sum-Hash" := by
  intro fr hmem hcode
  unfold fetch at hmem
  split at hmem
  · simp [pureR] at hmem
  · split at hmem
    · simp [pureR] at hmem
    · dsimp only at hmem
      split at hmem
      · simp [pureR] at hmem
      · split at hmem
        · simp only [List.mem_cons, List.not_mem_nil, or_false] at hmem
          subst hmem
          rfl
        · rcases mem_frames_andThen hmem with h1 | h2
          · have h102 := stepLogin_frames_code env _ fr h1
            rw [h102] at hcode
            exact absurd hcode (by decide)
          · rcases mem_frames_andThen h2 with h3 | h4
            · rw [stepChannels_frames] at h3
              simp at h3
            · split at h4
              · simp [pureR] at h4
              · rcases mem_frames_andThen h4 with h5 | h6
                · rw [stepInitHeaders_frames] at h5
                  simp at h5
                · rcases mem_frames_andThen h6 with h7 | h8
                  · rw [stepMakeConn_frames] at h7
                    simp at h7
                  · exact stepExchange_frames_md5 md5f sha256f env _ _ fr h8 hcode

/-- Witness for C9 at the concrete `201` frame of the size-mismatch
scenario. -/
theorem C9_witness :
    (⟨201, "URI Done",
      [("URI", some "http://h/x"), ("Filename", some "/tmp/f"), ("Size", some "999"),
       ("Last-Modified", none), ("MD5-Hash", some "A"), ("MD5Sum-Hash", some "A"),
       ("SHA256-Hash", some "B")]⟩ : Frame).fields.lookup "MD5-Hash"
    = (⟨201, "URI Done",
      [("URI", some "http://h/x"), ("Filename", some "/tmp/f"), ("Size", some "999"),
       ("Last-Modified", none), ("MD5-Hash", some "A"), ("MD5Sum-Hash", some "A"),
       ("SHA256-Hash", some "B")]⟩ : Frame).fields.lookup "MD5Sum-Hash" :=
  C9_md5_fields mdW shW envSizeW initState msgW _ (by decide) (by decide)

/-! ### Claim C10 -/

/-- Claim C10: the frame parser is not total — an input whose header
section contains the non-blank line `nocolon\n` with no `:` separator
makes the field split yield no value part, and parsing fails with
`IndexError` instead of returning a frame or the end-of-stream
signal. -/
theorem C10_parser_partial :
    getNextMsg false ["600 URI Acquire\n", "nocolon\n"] = .error PyExc.indexError := rfl

end Spacewalk
